import Mathlib

/-!
Verification of the mcpo gateway lifecycle manager (`src/mcpo/main.py`).

The development shallowly embeds the lifecycle logic of the source file:
the sub-app lifespan (per-backend establishment with a catch-all error
boundary), the main-app lifespan loop (sequential establishment over the
mounted sub-apps, startup report, summary logging, `AsyncExitStack`
teardown), the `GracefulShutdown` signal handler, the run-loop race of
`run`, and the configuration dispatch of `run`.

External effects (transport open, protocol handshake, endpoint
registration, task completion) are supplied as explicit outcomes in the
environments, so every definition is executable.
-/

namespace Mcpo

/-- Severity levels of the logging calls in `main.py`. -/
inductive LogLevel
  | info
  | warning
  | error
deriving DecidableEq

/-- One emitted log record. -/
structure LogRecord where
  level : LogLevel
  msg : String
deriving DecidableEq

/-- Environment of one sub-app establishment attempt (`lifespan`, else
branch, lines 149-176 of `main.py`): the configured `server_type` string
and the outcomes the outside world gives to the three effectful steps
(open the client transport, initialize the client session, register the
dynamic endpoints).  `Except.error` carries the exception message. -/
structure SubEnv where
  server_type : String
  transportOpen : Except String Unit
  sessionInit : Except String Unit
  registerEndpoints : Except String Unit

/-- The `server_type` dispatch of lines 151-169: the three supported
spellings, everything else raises `ValueError`. -/
def validType (t : String) : Bool :=
  t == "stdio" || t == "sse" || t == "streamablehttp" || t == "streamable_http"

/-- The body of the sub-app lifespan try-block before its yield: dispatch
on `server_type` (an unsupported type raises, line 169), open the
transport, enter the client session, build the dynamic endpoints.  The
first failing step aborts the sequence with its exception. -/
def establishSteps (e : SubEnv) : Except String Unit :=
  if !validType e.server_type then
    Except.error ("Unsupported server type: " ++ e.server_type)
  else
    match e.transportOpen with
    | Except.error m => Except.error m
    | Except.ok _ =>
      match e.sessionInit with
      | Except.error m => Except.error m
      | Except.ok _ => e.registerEndpoints

/-- Observable sub-app state: the `is_connected` flag on `app.state` and
the error logged by the except-handler of line 177. -/
structure SubState where
  is_connected : Bool
  loggedError : Option String
deriving DecidableEq

/-- The sub-app branch of `lifespan`: `is_connected` starts `False`
(line 149); on success it is set `True` immediately before the yield
(line 175); any exception is caught at line 177, logged, the flag is left
`False` and the generator returns without yielding.  The boolean of the
pair records whether the yield was reached. -/
def subEnter (e : SubEnv) : SubState × Bool :=
  match establishSteps e with
  | Except.ok _ => (⟨true, none⟩, true)
  | Except.error m => (⟨false, some m⟩, false)

/-- What `stack.enter_async_context(lifespan_context)` (line 110)
observes for one sub-app: a lifespan generator that returns before
yielding surfaces as an exception of the context-manager protocol
(`raised`); a generator that yields has `entered`, and the orchestrator
then reads its `is_connected` flag (line 111). -/
inductive EnterResult
  | raised
  | entered (is_connected : Bool)
deriving DecidableEq

/-- The orchestrator-visible result of driving one sub-app lifespan. -/
def enterResultOf (e : SubEnv) : EnterResult :=
  match subEnter e with
  | (st, true) => EnterResult.entered st.is_connected
  | (_, false) => EnterResult.raised

/-- One mounted sub-app as the main-app loop sees it: its title and what
entering its lifespan context does. -/
structure Backend where
  name : String
  enter : EnterResult
deriving DecidableEq

/-- Events of the establishment pass: one backend starts establishing
(line 108) or finishes establishing, with success or failure
(lines 111-124). -/
inductive Ev
  | startEstablish (name : String)
  | finishEstablish (name : String)
deriving DecidableEq

/-- State of the main-app lifespan pass: the two report lists
(lines 97-98), the `AsyncExitStack` acquisition stack of entered
contexts (line 96), and the event trace of the loop. -/
structure MainState where
  successful_servers : List String
  failed_servers : List String
  stack : List String
  events : List Ev
deriving DecidableEq

/-- Initial main-app lifespan state. -/
def initMain : MainState := ⟨[], [], [], []⟩

/-- `await stack.enter_async_context(lifespan_context)` as a fallible
operation: `raised` propagates an exception, `entered c` returns with the
context pushed and `is_connected = c` readable. -/
def enterExc (b : Backend) : Except Unit Bool :=
  match b.enter with
  | EnterResult.raised => Except.error ()
  | EnterResult.entered c => Except.ok c

/-- Line 108: the loop logs the start of one establishment. -/
def startLogged (st : MainState) (b : Backend) : MainState :=
  { st with events := st.events ++ [Ev.startEstablish b.name] }

/-- Lines 111-119: the enter returned; the context is on the stack; the
backend is classified by its `is_connected` flag. -/
def recordEntered (st : MainState) (b : Backend) (c : Bool) : MainState :=
  if c then
    { st with successful_servers := st.successful_servers ++ [b.name],
              stack := st.stack ++ [b.name],
              events := st.events ++ [Ev.finishEstablish b.name] }
  else
    { st with failed_servers := st.failed_servers ++ [b.name],
              stack := st.stack ++ [b.name],
              events := st.events ++ [Ev.finishEstablish b.name] }

/-- Lines 120-124: the enter raised; nothing was pushed on the stack; the
backend is recorded as failed. -/
def recordRaised (st : MainState) (b : Backend) : MainState :=
  { st with failed_servers := st.failed_servers ++ [b.name],
            events := st.events ++ [Ev.finishEstablish b.name] }

/-- One iteration of the main-app establishment loop (lines 106-124),
with the try/except already resolved. -/
def establishStep (st : MainState) (b : Backend) : MainState :=
  match enterExc b with
  | Except.ok c => recordEntered (startLogged st b) b c
  | Except.error _ => recordRaised (startLogged st b) b

/-- The establishment loop from a given state. -/
def establishAllFrom : MainState → List Backend → MainState
  | st, [] => st
  | st, b :: bs => establishAllFrom (establishStep st b) bs

/-- The whole establishment pass of the main-app lifespan
(lines 95-124): iterate the mounted sub-apps in configuration order. -/
def establishAll (bs : List Backend) : MainState :=
  establishAllFrom initMain bs

/-- A `try`/`except Exception` block in the exception monad. -/
def catchE {α : Type} (x : Except Unit α) (h : Unit → Except Unit α) : Except Unit α :=
  match x with
  | Except.ok a => Except.ok a
  | Except.error e => h e

/-- Lines 109-124 with the exception explicit: the enter may raise, and
the surrounding `except Exception` converts a raise into a failed-entry
record instead of propagating it. -/
def tryEnter (st : MainState) (b : Backend) : Except Unit MainState :=
  catchE
    (match enterExc b with
     | Except.ok c => Except.ok (recordEntered st b c)
     | Except.error e => Except.error e)
    (fun _ => Except.ok (recordRaised st b))

/-- The establishment loop in the exception monad: an uncaught exception
in any iteration would abort the whole pass with `Except.error`. -/
def establishPassFrom : MainState → List Backend → Except Unit MainState
  | st, [] => Except.ok st
  | st, b :: bs =>
    match tryEnter (startLogged st b) b with
    | Except.ok st1 => establishPassFrom st1 bs
    | Except.error e => Except.error e

/-- The establishment pass in the exception monad. -/
def establishPassE (bs : List Backend) : Except Unit MainState :=
  establishPassFrom initMain bs

/-- A backend establishes successfully: its enter returned normally and
its `is_connected` flag was `True` (lines 111-114). -/
def isSuccess (b : Backend) : Bool :=
  match b.enter with
  | EnterResult.entered true => true
  | _ => false

/-- A backend whose enter returned normally (its context is on the
acquisition stack), connected or not. -/
def isEntered (b : Backend) : Bool :=
  match b.enter with
  | EnterResult.entered _ => true
  | EnterResult.raised => false

/-- The event trace the loop produces: start then finish per backend, in
configuration order. -/
def pairEvents : List Backend → List Ev
  | [] => []
  | b :: bs => Ev.startEstablish b.name :: Ev.finishEstablish b.name :: pairEvents bs

theorem establishAllFrom_successful (bs : List Backend) : ∀ st : MainState,
    (establishAllFrom st bs).successful_servers
      = st.successful_servers ++ (bs.filter isSuccess).map Backend.name := by
  induction bs with
  | nil => intro st; simp [establishAllFrom]
  | cons b bs ih =>
    intro st
    match hb : b.enter with
    | EnterResult.raised =>
      simp [establishAllFrom, establishStep, enterExc, hb, recordRaised, startLogged,
        ih, isSuccess, List.filter_cons]
    | EnterResult.entered true =>
      simp [establishAllFrom, establishStep, enterExc, hb, recordEntered, startLogged,
        ih, isSuccess, List.filter_cons]
    | EnterResult.entered false =>
      simp [establishAllFrom, establishStep, enterExc, hb, recordEntered, startLogged,
        ih, isSuccess, List.filter_cons]

theorem establishAllFrom_failed (bs : List Backend) : ∀ st : MainState,
    (establishAllFrom st bs).failed_servers
      = st.failed_servers ++ (bs.filter (fun b => !isSuccess b)).map Backend.name := by
  induction bs with
  | nil => intro st; simp [establishAllFrom]
  | cons b bs ih =>
    intro st
    match hb : b.enter with
    | EnterResult.raised =>
      simp [establishAllFrom, establishStep, enterExc, hb, recordRaised, startLogged,
        ih, isSuccess, List.filter_cons]
    | EnterResult.entered true =>
      simp [establishAllFrom, establishStep, enterExc, hb, recordEntered, startLogged,
        ih, isSuccess, List.filter_cons]
    | EnterResult.entered false =>
      simp [establishAllFrom, establishStep, enterExc, hb, recordEntered, startLogged,
        ih, isSuccess, List.filter_cons]

theorem establishAllFrom_stack (bs : List Backend) : ∀ st : MainState,
    (establishAllFrom st bs).stack
      = st.stack ++ (bs.filter isEntered).map Backend.name := by
  induction bs with
  | nil => intro st; simp [establishAllFrom]
  | cons b bs ih =>
    intro st
    match hb : b.enter with
    | EnterResult.raised =>
      simp [establishAllFrom, establishStep, enterExc, hb, recordRaised, startLogged,
        ih, isEntered, List.filter_cons]
    | EnterResult.entered true =>
      simp [establishAllFrom, establishStep, enterExc, hb, recordEntered, startLogged,
        ih, isEntered, List.filter_cons]
    | EnterResult.entered false =>
      simp [establishAllFrom, establishStep, enterExc, hb, recordEntered, startLogged,
        ih, isEntered, List.filter_cons]

theorem establishAllFrom_events (bs : List Backend) : ∀ st : MainState,
    (establishAllFrom st bs).events = st.events ++ pairEvents bs := by
  induction bs with
  | nil => intro st; simp [establishAllFrom, pairEvents]
  | cons b bs ih =>
    intro st
    match hb : b.enter with
    | EnterResult.raised =>
      simp [establishAllFrom, establishStep, enterExc, hb, recordRaised, startLogged,
        ih, pairEvents]
    | EnterResult.entered true =>
      simp [establishAllFrom, establishStep, enterExc, hb, recordEntered, startLogged,
        ih, pairEvents]
    | EnterResult.entered false =>
      simp [establishAllFrom, establishStep, enterExc, hb, recordEntered, startLogged,
        ih, pairEvents]

theorem establishPassFrom_ok (bs : List Backend) : ∀ st : MainState,
    establishPassFrom st bs = Except.ok (establishAllFrom st bs) := by
  induction bs with
  | nil => intro st; rfl
  | cons b bs ih =>
    intro st
    match hb : b.enter with
    | EnterResult.raised =>
      simp [establishPassFrom, establishAllFrom, tryEnter, catchE, establishStep,
        enterExc, hb, ih]
    | EnterResult.entered c =>
      simp [establishPassFrom, establishAllFrom, tryEnter, catchE, establishStep,
        enterExc, hb, ih]

theorem establishPassE_ok (bs : List Backend) :
    establishPassE bs = Except.ok (establishAll bs) :=
  establishPassFrom_ok bs initMain

theorem length_filter_not_isSuccess (bs : List Backend) :
    (bs.filter (fun b => !isSuccess b)).length = bs.length - (bs.filter isSuccess).length := by
  induction bs with
  | nil => simp
  | cons b bs ih =>
    have hle := List.length_filter_le isSuccess bs
    cases hb : isSuccess b
    all_goals simp [List.filter_cons, hb, ih]
    all_goals omega

/-- Models the unwinding of `contextlib.AsyncExitStack` (the
`async with AsyncExitStack() as stack` of line 96, closed after the yield
at line 144): the registered contexts are exited in reverse registration
order; every exit is attempted even when an earlier one fails, and
failures are collected (chained by the protocol) instead of stopping the
unwind.  The argument list is already reversed; the result is the attempt
order paired with the collected failures. -/
def unwindOrder : List String → (String → Except String Unit) → List String × List String
  | [], _ => ([], [])
  | c :: cs, release =>
    let rest := unwindOrder cs release
    match release c with
    | Except.ok _ => (c :: rest.1, rest.2)
    | Except.error e => (c :: rest.1, e :: rest.2)

/-- Teardown of the acquisition stack: exit the entered contexts in
reverse acquisition order. -/
def unwindStack (contexts : List String) (release : String → Except String Unit) :
    List String × List String :=
  unwindOrder contexts.reverse release

theorem unwindOrder_fst (cs : List String) (release : String → Except String Unit) :
    (unwindOrder cs release).1 = cs := by
  induction cs with
  | nil => rfl
  | cons c cs ih =>
    cases h : release c <;> simp [unwindOrder, h, ih]

theorem unwindStack_fst (cs : List String) (release : String → Except String Unit) :
    (unwindStack cs release).1 = cs.reverse :=
  unwindOrder_fst cs.reverse release

/-- Number of backends mid-establishment after a list of loop events. -/
def openAfter (t : List Ev) : Nat :=
  t.foldl
    (fun n e =>
      match e with
      | Ev.startEstablish _ => n + 1
      | Ev.finishEstablish _ => n - 1)
    0

theorem pairEvents_take_open (bs : List Backend) :
    ∀ k : Nat, openAfter ((pairEvents bs).take k) ≤ 1 := by
  induction bs with
  | nil => intro k; simp [pairEvents, openAfter]
  | cons b bs ih =>
    intro k
    match k with
    | 0 => simp [openAfter]
    | 1 => simp [pairEvents, openAfter, List.foldl]
    | Nat.succ (Nat.succ k) =>
      have h := ih k
      simpa [pairEvents, openAfter, List.foldl] using h

theorem pairEvents_get_start (bs : List Backend) :
    ∀ (i : Nat) (h : i < bs.length),
      (pairEvents bs).get? (2 * i) = some (Ev.startEstablish (bs.get ⟨i, h⟩).name) := by
  induction bs with
  | nil => intro i h; exact absurd h (by simp)
  | cons b bs ih =>
    intro i h
    match i with
    | 0 => simp [pairEvents]
    | Nat.succ i =>
      have h2 : i < bs.length := by simpa using Nat.lt_of_succ_lt_succ h
      have := ih i h2
      simpa [pairEvents, Nat.mul_succ, List.get?] using this

theorem pairEvents_get_finish (bs : List Backend) :
    ∀ (i : Nat) (h : i < bs.length),
      (pairEvents bs).get? (2 * i + 1) = some (Ev.finishEstablish (bs.get ⟨i, h⟩).name) := by
  induction bs with
  | nil => intro i h; exact absurd h (by simp)
  | cons b bs ih =>
    intro i h
    match i with
    | 0 => simp [pairEvents]
    | Nat.succ i =>
      have h2 : i < bs.length := by simpa using Nat.lt_of_succ_lt_succ h
      have := ih i h2
      simpa [pairEvents, Nat.mul_succ, List.get?] using this

/-- The `GracefulShutdown` coordinator state (lines 29-44): the
`asyncio.Event` as its internal flag, and the tracked task set as a list
of task identifiers. -/
structure GracefulShutdown where
  shutdown_event : Bool
  tasks : List Nat
deriving DecidableEq

/-- `GracefulShutdown.handle_signal` (lines 34-39): log and set the
shutdown event.  `asyncio.Event.set` only makes the internal flag true. -/
def handle_signal (g : GracefulShutdown) : GracefulShutdown :=
  { g with shutdown_event := true }

/-- One task the coordinator tracks: its identifier, whether it has
already completed, and whether awaiting it yields an exception. -/
structure TrackedTask where
  id : Nat
  done : Bool
  failsOnAwait : Bool
deriving DecidableEq

/-- The two awaitables handed to `asyncio.wait` at lines 405-408. -/
inductive RaceTask
  | serverTask
  | shutdownWait
deriving DecidableEq

/-- The race input: which of the two waits completed (membership in the
`done` set of `asyncio.wait`; at least one completes, by
`FIRST_COMPLETED`), and the coordinator's tracked tasks at that point. -/
structure RunInput where
  serverDone : Bool
  signalDone : Bool
  tracked : List TrackedTask
deriving DecidableEq

/-- The awaitables raced by the run loop. -/
def raceTasks : List RaceTask := [RaceTask.serverTask, RaceTask.shutdownWait]

/-- Awaiting a tracked task after cancellation: its outcome as a value. -/
def awaitOutcome (t : TrackedTask) : Except String Unit :=
  if t.failsOnAwait then Except.error "task error" else Except.ok ()

/-- `asyncio.gather(*tasks, return_exceptions=True)` (line 429): total,
every per-task error is returned as a value, never re-raised. -/
def gatherReturnExceptions (ts : List TrackedTask) : List (Except String Unit) :=
  ts.map awaitOutcome

/-- The `pending` set of `asyncio.wait`: the race tasks that did not
complete. -/
def pendingRace (inp : RunInput) : List RaceTask :=
  (if inp.serverDone then [] else [RaceTask.serverTask]) ++
    (if inp.signalDone then [] else [RaceTask.shutdownWait])

deriving instance DecidableEq for Except

/-- Observable actions of the shutdown phase of `run` (lines 410-429). -/
inductive Action
  | warnServerExit
  | setShutdownEvent
  | cancelRace (t : RaceTask)
  | setShouldExit
  | cancelTracked (id : Nat)
  | gatherAll (outcomes : List (Except String Unit))
deriving DecidableEq

/-- The shutdown phase of `run` after `asyncio.wait` returns
(lines 410-429): treat a server exit as an implicit shutdown signal with
a warning, cancel the losing wait, set `server.should_exit`, cancel every
tracked task that is not done, and gather all tracked tasks with
exceptions returned as values. -/
def runShutdown (inp : RunInput) : List Action :=
  (if inp.serverDone then [Action.warnServerExit, Action.setShutdownEvent] else []) ++
    (pendingRace inp).map Action.cancelRace ++
    [Action.setShouldExit] ++
    ((inp.tracked.filter (fun t => !t.done)).map (fun t => Action.cancelTracked t.id)) ++
    (if inp.tracked.isEmpty then [] else [Action.gatherAll (gatherReturnExceptions inp.tracked)])

/-- The tracked-task cancellations of an action trace, in order. -/
def trackedCancelsOf (t : List Action) : List Nat :=
  t.filterMap fun a =>
    match a with
    | Action.cancelTracked n => some n
    | _ => none

theorem trackedCancelsOf_map (l : List TrackedTask) :
    trackedCancelsOf (l.map fun t => Action.cancelTracked t.id) = l.map TrackedTask.id := by
  induction l with
  | nil => rfl
  | cons t l ih =>
    simp only [List.map_cons, trackedCancelsOf, List.filterMap_cons] at ih ⊢
    simpa using ih

theorem runShutdown_trackedCancels (inp : RunInput) :
    trackedCancelsOf (runShutdown inp)
      = (inp.tracked.filter (fun t => !t.done)).map TrackedTask.id := by
  have hmap := trackedCancelsOf_map (inp.tracked.filter (fun t => !t.done))
  simp only [runShutdown, trackedCancelsOf, List.filterMap_append] at *
  cases hs : inp.serverDone <;> cases hg : inp.signalDone <;>
    cases ht : inp.tracked.isEmpty <;>
    simp [pendingRace, hs, hg, ht, List.filterMap_cons, hmap]

theorem runShutdown_one_shutdown (inp : RunInput) :
    (runShutdown inp).count Action.setShouldExit = 1 := by
  have hzero : ∀ l : List TrackedTask,
      (l.map fun t => Action.cancelTracked t.id).count Action.setShouldExit = 0 := by
    intro l
    rw [List.count_eq_zero]
    simp
  cases hs : inp.serverDone <;> cases hg : inp.signalDone <;>
    cases ht : inp.tracked.isEmpty <;>
    simp [runShutdown, pendingRace, hs, hg, ht, List.count_append, List.count_cons,
      hzero, List.count_eq_zero]

/-- `urllib.parse.urljoin(path_prefix, name ++ "/docs")` (line 133) for a
relative reference: the reference replaces the last path segment of the
base. -/
def urljoinRel (base rel : String) : String :=
  String.mk ((base.data.reverse.dropWhile (fun c => c != '/')).reverse ++ rel.data)

/-- The markdown link appended to the gateway description for one
succeeded backend (lines 133-134): labelled by the backend name and
pointing at its docs path. -/
def linkEntry (pfx n : String) : String :=
  "\n    - [" ++ n ++ "](" ++ urljoinRel pfx (n ++ "/docs") ++ ")"

/-- The log records and gateway description produced by the startup
summary block. -/
structure Summary where
  logs : List LogRecord
  description : String
deriving DecidableEq

/-- The startup summary block of the main-app lifespan (lines 126-142):
log the succeeded backends and extend the description with one link per
succeeded backend when there are any; log the failed backends at warning
level; when nothing succeeded, log an error-level record.  The block
raises nothing. -/
def summarize (desc pfx : String) (succ failed : List String) : Summary :=
  let logs1 := [LogRecord.mk LogLevel.info "\n--- Server Startup Summary ---"]
  let logs2 :=
    if succ.isEmpty then logs1
    else logs1 ++ [LogRecord.mk LogLevel.info "Successfully connected to:"]
      ++ succ.map (fun n => LogRecord.mk LogLevel.info ("  - " ++ n))
  let desc2 :=
    if succ.isEmpty then desc
    else desc ++ "\n\n- **available tools**：" ++ String.join (succ.map (linkEntry pfx))
  let logs3 :=
    if failed.isEmpty then logs2
    else logs2 ++ [LogRecord.mk LogLevel.warning "Failed to connect to:"]
      ++ failed.map (fun n => LogRecord.mk LogLevel.warning ("  - " ++ n))
  let logs4 := logs3 ++ [LogRecord.mk LogLevel.info "--------------------------\n"]
  let logs5 :=
    if succ.isEmpty then
      logs4 ++ [LogRecord.mk LogLevel.error "No MCP servers could be reached."]
    else logs4
  ⟨logs5, desc2⟩

/-- The main-app lifespan up to its yield (lines 95-144): the
establishment pass followed by the startup summary.  An `Except.error`
would be an exception escaping before the yield. -/
def mainLifespanEnter (desc pfx : String) (bs : List Backend) :
    Except Unit (MainState × Summary) :=
  match establishPassE bs with
  | Except.error e => Except.error e
  | Except.ok st =>
    Except.ok (st, summarize desc pfx st.successful_servers st.failed_servers)

/-- The configuration surface of `run` that decides which backends exist
(lines 280-370): the optional `server_type`, the optional `server_command`
argument list, and, when a config path was given, the keys of the
`mcpServers` map of the config file (`none` means no config path). -/
structure RunArgs where
  server_type : Option String
  server_command : Option (List String)
  config : Option (List String)
deriving DecidableEq

/-- `server_command[0]`: indexing `None` or an empty list raises. -/
def headOf : Option (List String) → Except String String
  | some (x :: _) => Except.ok x
  | some [] => Except.error "IndexError: list index out of range"
  | none => Except.error "TypeError: NoneType is not subscriptable"

/-- The backend-configuration dispatch of `run` (lines 280-370): a forced
single SSE or StreamableHTTP server, else a single stdio server when a
command was given, else the servers of the config file — raising when the
`mcpServers` map is empty (line 313) or when neither a command nor a
config was given (line 370).  Returns the names of the configured
backends. -/
def configureBackends (a : RunArgs) : Except String (List String) :=
  if a.server_type = some "sse" then
    match headOf a.server_command with
    | Except.error m => Except.error m
    | Except.ok url => Except.ok ["sse:" ++ url]
  else if a.server_type = some "streamablehttp" ∨ a.server_type = some "streamable_http" then
    match headOf a.server_command with
    | Except.error m => Except.error m
    | Except.ok url => Except.ok ["streamablehttp:" ++ url]
  else
    match a.server_command with
    | some (c :: _) => Except.ok ["stdio:" ++ c]
    | _ =>
      match a.config with
      | some names =>
        if names.isEmpty then Except.error "No mcpServers found in config file."
        else Except.ok names
      | none => Except.error "You must provide either server_command or config."

/-- The establishment events of a whole run of `run`: configuration
happens before the server starts, so a configuration error means the
lifespan — and with it any establishment — never runs. -/
def connectionAttemptsOf (a : RunArgs) (outcomes : String → EnterResult) : List Ev :=
  match configureBackends a with
  | Except.error _ => []
  | Except.ok names => (establishAll (names.map fun n => ⟨n, outcomes n⟩)).events

/-- C1: for every ordered sequence of configured backends of which K
establish successfully and the remaining N − K fail, the main-app
establishment pass produces a report whose succeeded list has length K
and whose failed list has length N − K, with names in configuration
order, and the pass itself never raises an exception. -/
theorem establishAll_report (bs : List Backend) :
    (establishAll bs).successful_servers.length = (bs.filter isSuccess).length ∧
    (establishAll bs).failed_servers.length = bs.length - (bs.filter isSuccess).length ∧
    (establishAll bs).successful_servers = (bs.filter isSuccess).map Backend.name ∧
    (establishAll bs).failed_servers
      = (bs.filter (fun b => !isSuccess b)).map Backend.name ∧
    establishPassE bs = Except.ok (establishAll bs) := by
  have hs : (establishAll bs).successful_servers
      = (bs.filter isSuccess).map Backend.name := by
    simpa [establishAll, initMain] using establishAllFrom_successful bs initMain
  have hf : (establishAll bs).failed_servers
      = (bs.filter (fun b => !isSuccess b)).map Backend.name := by
    simpa [establishAll, initMain] using establishAllFrom_failed bs initMain
  refine ⟨?_, ?_, hs, hf, establishPassE_ok bs⟩
  · rw [hs]; simp
  · rw [hf]; simp [length_filter_not_isSuccess]

/-- C2: an error from one backend is recorded in the failed list and
does not abort the loop — every later backend is still attempted and
classified exactly as it would be on its own.  In particular, for three
backends where only the second fails, the report is
succeeded = [first, third], failed = [second]. -/
theorem failure_isolation (pre post : List Backend) (b : Backend)
    (hb : isSuccess b = false) :
    (establishAll (pre ++ b :: post)).successful_servers
        = (pre.filter isSuccess).map Backend.name
            ++ (post.filter isSuccess).map Backend.name ∧
    (establishAll (pre ++ b :: post)).failed_servers
        = (pre.filter (fun x => !isSuccess x)).map Backend.name
            ++ b.name :: (post.filter (fun x => !isSuccess x)).map Backend.name ∧
    ∀ n1 n2 n3 : String,
      (establishAll [⟨n1, EnterResult.entered true⟩, ⟨n2, EnterResult.raised⟩,
          ⟨n3, EnterResult.entered true⟩]).successful_servers = [n1, n3] ∧
      (establishAll [⟨n1, EnterResult.entered true⟩, ⟨n2, EnterResult.raised⟩,
          ⟨n3, EnterResult.entered true⟩]).failed_servers = [n2] := by
  refine ⟨?_, ?_, ?_⟩
  · have hs := establishAllFrom_successful (pre ++ b :: post) initMain
    simpa [establishAll, initMain, List.filter_append, List.filter_cons, hb] using hs
  · have hf := establishAllFrom_failed (pre ++ b :: post) initMain
    simpa [establishAll, initMain, List.filter_append, List.filter_cons, hb] using hf
  · intro n1 n2 n3
    constructor
    · have hs := establishAllFrom_successful
        [⟨n1, EnterResult.entered true⟩, ⟨n2, EnterResult.raised⟩,
          ⟨n3, EnterResult.entered true⟩] initMain
      simpa [establishAll, initMain, List.filter_cons, isSuccess] using hs
    · have hf := establishAllFrom_failed
        [⟨n1, EnterResult.entered true⟩, ⟨n2, EnterResult.raised⟩,
          ⟨n3, EnterResult.entered true⟩] initMain
      simpa [establishAll, initMain, List.filter_cons, isSuccess] using hf

theorem failure_isolation_witness :
    isSuccess ⟨"b", EnterResult.raised⟩ = false ∧
    (establishAll ([⟨"a", EnterResult.entered true⟩]
        ++ ⟨"b", EnterResult.raised⟩ :: [⟨"c", EnterResult.entered true⟩])).failed_servers
      = ([⟨"a", EnterResult.entered true⟩].filter
            (fun x => !isSuccess x)).map Backend.name
          ++ "b" :: (([⟨"c", EnterResult.entered true⟩] : List Backend).filter
            (fun x => !isSuccess x)).map Backend.name :=
  ⟨by decide,
    (failure_isolation [⟨"a", EnterResult.entered true⟩]
      [⟨"c", EnterResult.entered true⟩] ⟨"b", EnterResult.raised⟩ (by decide)).2.1⟩

/-- C3: connections whose contexts were acquired in order [a, b, c] are
released in exactly the reverse order [c, b, a]; in general the teardown
attempts every release in strict reverse acquisition order, for every
assignment of release outcomes, collecting failures instead of
re-raising them. -/
theorem teardown_reverse_order (bs : List Backend)
    (release : String → Except String Unit) (a b c : String)
    (h : (establishAll bs).stack = [a, b, c]) :
    (unwindStack (establishAll bs).stack release).1 = [c, b, a] ∧
    ∀ (cs : List String) (rel : String → Except String Unit),
      (unwindStack cs rel).1 = cs.reverse ∧
      (unwindStack cs rel).1.length = cs.length := by
  refine ⟨?_, fun cs rel => ⟨unwindStack_fst cs rel, by rw [unwindStack_fst]; simp⟩⟩
  rw [h, unwindStack_fst]
  rfl

theorem teardown_reverse_order_witness :
    (establishAll [⟨"A", EnterResult.entered true⟩, ⟨"B", EnterResult.entered true⟩,
        ⟨"C", EnterResult.entered true⟩]).stack = ["A", "B", "C"] ∧
    (unwindStack (establishAll [⟨"A", EnterResult.entered true⟩,
        ⟨"B", EnterResult.entered true⟩, ⟨"C", EnterResult.entered true⟩]).stack
      (fun _ => Except.ok ())).1 = ["C", "B", "A"] :=
  ⟨by decide,
    (teardown_reverse_order _ (fun _ => Except.ok ()) "A" "B" "C" (by decide)).1⟩

/-- C4: establishment is strictly sequential: for any two backends at
positions i < j in configuration order, the finish event of backend i
occurs strictly before the start event of backend j in the loop trace,
and at no prefix of the trace is more than one backend
mid-establishment. -/
theorem establish_sequential (bs : List Backend) (i j : Nat)
    (hij : i < j) (hj : j < bs.length) :
    (∃ ki kj : Nat, ki < kj ∧
      (establishAll bs).events.get? ki
        = some (Ev.finishEstablish (bs.get ⟨i, Nat.lt_trans hij hj⟩).name) ∧
      (establishAll bs).events.get? kj
        = some (Ev.startEstablish (bs.get ⟨j, hj⟩).name)) ∧
    ∀ k : Nat, openAfter ((establishAll bs).events.take k) ≤ 1 := by
  have hev : (establishAll bs).events = pairEvents bs := by
    simpa [establishAll, initMain] using establishAllFrom_events bs initMain
  constructor
  · refine ⟨2 * i + 1, 2 * j, by omega, ?_, ?_⟩
    · rw [hev]; exact pairEvents_get_finish bs i (Nat.lt_trans hij hj)
    · rw [hev]; exact pairEvents_get_start bs j hj
  · intro k; rw [hev]; exact pairEvents_take_open bs k

theorem establish_sequential_witness :
    ∃ ki kj : Nat, ki < kj ∧
      (establishAll [⟨"a", EnterResult.entered true⟩,
          ⟨"b", EnterResult.raised⟩]).events.get? ki
        = some (Ev.finishEstablish "a") ∧
      (establishAll [⟨"a", EnterResult.entered true⟩,
          ⟨"b", EnterResult.raised⟩]).events.get? kj
        = some (Ev.startEstablish "b") := by
  have h := (establish_sequential [⟨"a", EnterResult.entered true⟩,
    ⟨"b", EnterResult.raised⟩] 0 1 (by decide) (by decide)).1
  simpa [List.get] using h

/-- C5: a failure at any establishment step (unsupported type, transport
open, handshake, endpoint registration) is caught inside the sub-app
lifespan: the connected flag stays false, the error is recorded, the
yield is not reached, and the orchestrator turns the backend into a
failed report entry while the whole pass still returns normally. -/
theorem connection_error_isolated (e : SubEnv) (msg : String)
    (h : establishSteps e = Except.error msg) :
    (subEnter e).1.is_connected = false ∧
    (subEnter e).1.loggedError = some msg ∧
    (subEnter e).2 = false ∧
    ∀ (n : String) (pre post : List Backend),
      establishPassE (pre ++ ⟨n, enterResultOf e⟩ :: post)
          = Except.ok (establishAll (pre ++ ⟨n, enterResultOf e⟩ :: post)) ∧
      (establishAll (pre ++ ⟨n, enterResultOf e⟩ :: post)).failed_servers
          = (pre.filter (fun x => !isSuccess x)).map Backend.name
              ++ n :: (post.filter (fun x => !isSuccess x)).map Backend.name := by
  have hsub : subEnter e = (⟨false, some msg⟩, false) := by simp [subEnter, h]
  have hres : enterResultOf e = EnterResult.raised := by simp [enterResultOf, hsub]
  refine ⟨by simp [hsub], by simp [hsub], by simp [hsub], ?_⟩
  intro n pre post
  refine ⟨establishPassE_ok _, ?_⟩
  have hf := establishAllFrom_failed (pre ++ ⟨n, enterResultOf e⟩ :: post) initMain
  have hns : isSuccess ⟨n, enterResultOf e⟩ = false := by simp [isSuccess, hres]
  simpa [establishAll, initMain, List.filter_append, List.filter_cons, hns] using hf

theorem connection_error_isolated_witness :
    (subEnter ⟨"stdio", Except.error "boom", Except.ok (), Except.ok ()⟩).1.is_connected
        = false ∧
    (subEnter ⟨"stdio", Except.error "boom", Except.ok (), Except.ok ()⟩).1.loggedError
        = some "boom" := by
  have h := connection_error_isolated
    ⟨"stdio", Except.error "boom", Except.ok (), Except.ok ()⟩ "boom" (by rfl)
  exact ⟨h.1, h.2.1⟩

/-- C6: the shutdown signal handler is idempotent: it sets the
shutdown-event flag and changes nothing else; when the flag is already
set it is a no-op; and after signalling once or twice the run loop
executes exactly one shutdown sequence. -/
theorem handle_signal_idempotent (g : GracefulShutdown)
    (h : g.shutdown_event = true) :
    handle_signal g = g ∧
    ∀ g2 : GracefulShutdown,
      (handle_signal g2).shutdown_event = true ∧
      (handle_signal g2).tasks = g2.tasks ∧
      handle_signal (handle_signal g2) = handle_signal g2 ∧
      ∀ ts : List TrackedTask,
        (runShutdown ⟨false, (handle_signal (handle_signal g2)).shutdown_event, ts⟩).count
            Action.setShouldExit = 1 := by
  constructor
  · cases g with
    | mk ev tasks =>
      simp only at h
      rw [h]
      rfl
  · intro g2
    exact ⟨rfl, rfl, rfl, fun ts => runShutdown_one_shutdown _⟩

theorem handle_signal_idempotent_witness :
    handle_signal ⟨true, []⟩ = (⟨true, []⟩ : GracefulShutdown) :=
  (handle_signal_idempotent ⟨true, []⟩ rfl).1

/-- C7: the run loop races exactly the two waits (serving-task exit and
shutdown signal); on whichever completes first it proceeds to shutdown:
a serving-task exit is logged as a warning and sets the shutdown event,
the losing wait is cancelled, the serving component is told to stop, the
still-outstanding tracked tasks are cancelled, and every tracked task is
awaited with individual errors returned as values rather than
re-raised. -/
theorem run_loop_race (inp : RunInput)
    (h : inp.serverDone = true ∨ inp.signalDone = true) :
    raceTasks.length = 2 ∧
    (pendingRace inp).length ≤ 1 ∧
    Action.setShouldExit ∈ runShutdown inp ∧
    ((Action.warnServerExit ∈ runShutdown inp) ↔ inp.serverDone = true) ∧
    ((Action.setShutdownEvent ∈ runShutdown inp) ↔ inp.serverDone = true) ∧
    ((Action.cancelRace RaceTask.serverTask ∈ runShutdown inp)
        ↔ inp.serverDone = false) ∧
    ((Action.cancelRace RaceTask.shutdownWait ∈ runShutdown inp)
        ↔ inp.signalDone = false) ∧
    trackedCancelsOf (runShutdown inp)
        = (inp.tracked.filter (fun t => !t.done)).map TrackedTask.id ∧
    (gatherReturnExceptions inp.tracked).length = inp.tracked.length ∧
    (inp.tracked ≠ [] →
      Action.gatherAll (gatherReturnExceptions inp.tracked) ∈ runShutdown inp) := by
  refine ⟨rfl, ?_, ?_, ?_, ?_, ?_, ?_, runShutdown_trackedCancels inp,
    by simp [gatherReturnExceptions], ?_⟩
  · rcases h with hs | hg
    · cases hg : inp.signalDone <;> simp [pendingRace, hs, hg]
    · cases hs : inp.serverDone <;> simp [pendingRace, hs, hg]
  · simp [runShutdown]
  · cases hs : inp.serverDone <;> simp [runShutdown, pendingRace, hs]
  · cases hs : inp.serverDone <;> simp [runShutdown, pendingRace, hs]
  · cases hs : inp.serverDone <;> simp [runShutdown, pendingRace, hs]
  · cases hs : inp.serverDone <;> cases hg : inp.signalDone <;>
      simp [runShutdown, pendingRace, hs, hg]
  · intro hne
    have ht : inp.tracked.isEmpty = false := by
      cases htr : inp.tracked with
      | nil => exact absurd htr hne
      | cons a l => rfl
    simp [runShutdown, ht]

theorem run_loop_race_witness :
    Action.setShouldExit ∈ runShutdown ⟨true, false, [⟨1, false, true⟩]⟩ :=
  (run_loop_race ⟨true, false, [⟨1, false, true⟩]⟩ (Or.inl rfl)).2.2.1

/-- C8 counterexample: when the succeeded list is empty, the record
reporting the degraded condition is emitted at error severity, not as a
warning-level record. -/
theorem summary_warning_level_counterexample :
    LogRecord.mk LogLevel.error "No MCP servers could be reached."
        ∈ (summarize "" "/" [] ["a"]).logs ∧
    LogRecord.mk LogLevel.warning "No MCP servers could be reached."
        ∉ (summarize "" "/" [] ["a"]).logs := by
  decide

/-- C8 (amended): after all backends have been attempted the lifespan
reaches its yield without raising; if the succeeded list is non-empty the
gateway description is extended with exactly one discoverable link per
succeeded backend, keyed by its name; if the succeeded list is empty the
description is unchanged and the degraded condition is reported by a
top-level error-level log record — with the failed backends listed at
warning level — and no exception is raised, so the gateway keeps running
degraded. -/
theorem startup_summary_spec (desc pfx : String) (bs : List Backend) :
    mainLifespanEnter desc pfx bs
        = Except.ok (establishAll bs,
            summarize desc pfx (establishAll bs).successful_servers
              (establishAll bs).failed_servers) ∧
    ∀ succ failed : List String,
      (succ ≠ [] → (summarize desc pfx succ failed).description
          = desc ++ "\n\n- **available tools**："
              ++ String.join (succ.map (linkEntry pfx))) ∧
      (succ = [] → (summarize desc pfx succ failed).description = desc ∧
          LogRecord.mk LogLevel.error "No MCP servers could be reached."
            ∈ (summarize desc pfx succ failed).logs) ∧
      (failed ≠ [] → LogRecord.mk LogLevel.warning "Failed to connect to:"
          ∈ (summarize desc pfx succ failed).logs) := by
  constructor
  · simp [mainLifespanEnter, establishPassE_ok]
  · intro succ failed
    refine ⟨?_, ?_, ?_⟩
    · intro hne
      have hsu : succ.isEmpty = false := by
        cases hc : succ with
        | nil => exact absurd hc hne
        | cons a l => rfl
      simp [summarize, hsu]
    · intro heq
      subst heq
      simp [summarize]
    · intro hne
      have hfe : failed.isEmpty = false := by
        cases hc : failed with
        | nil => exact absurd hc hne
        | cons a l => rfl
      cases hsu : succ.isEmpty <;> simp [summarize, hsu, hfe]

theorem startup_summary_spec_witness :
    (summarize "d" "/" ([] : List String) ["a"]).description = "d" ∧
    LogRecord.mk LogLevel.error "No MCP servers could be reached."
        ∈ (summarize "d" "/" ([] : List String) ["a"]).logs :=
  ((startup_summary_spec "d" "/" []).2 [] ["a"]).2.1 rfl

/-- C9: with no server command given (absent or empty) and the config
server map empty or absent, and no single-server type forced, startup
aborts with a configuration error, and no backend establishment is ever
started for any possible establishment outcomes. -/
theorem zero_backends_config_error (a : RunArgs)
    (hcmd : a.server_command = none ∨ a.server_command = some [])
    (htype : a.server_type ≠ some "sse" ∧ a.server_type ≠ some "streamablehttp"
      ∧ a.server_type ≠ some "streamable_http")
    (hcfg : a.config = none ∨ a.config = some []) :
    (configureBackends a = Except.error "No mcpServers found in config file."
      ∨ configureBackends a
          = Except.error "You must provide either server_command or config.") ∧
    ∀ outcomes : String → EnterResult, connectionAttemptsOf a outcomes = [] := by
  obtain ⟨h1, h2, h3⟩ := htype
  have hcb : configureBackends a = Except.error "No mcpServers found in config file."
      ∨ configureBackends a
          = Except.error "You must provide either server_command or config." := by
    rcases hcmd with hc | hc <;> rcases hcfg with hg | hg <;>
      simp [configureBackends, h1, h2, h3, hc, hg]
  refine ⟨hcb, fun outcomes => ?_⟩
  rcases hcb with hcb | hcb <;> simp [connectionAttemptsOf, hcb]

theorem zero_backends_config_error_witness :
    configureBackends ⟨none, none, some []⟩
        = Except.error "No mcpServers found in config file."
      ∨ configureBackends ⟨none, none, some []⟩
        = Except.error "You must provide either server_command or config." :=
  (zero_backends_config_error ⟨none, none, some []⟩ (Or.inl rfl)
    ⟨by decide, by decide, by decide⟩ (Or.inr rfl)).1

/-- C10: a backend is recorded as succeeded exactly when its
establishment returned without raising and its connected flag was true;
a backend whose establishment returns normally with the flag false is
recorded in the failed list. -/
theorem succeeded_requires_connected_flag (bs : List Backend) :
    (establishAll bs).successful_servers
        = (bs.filter (fun b => isEntered b && isSuccess b)).map Backend.name ∧
    (establishAll bs).failed_servers
        = (bs.filter (fun b => !(isEntered b && isSuccess b))).map Backend.name ∧
    ∀ b ∈ bs, b.enter = EnterResult.entered false →
      b.name ∈ (establishAll bs).failed_servers := by
  have hpt : ∀ x ∈ bs, (isEntered x && isSuccess x) = isSuccess x := by
    intro x _
    cases hx : x.enter with
    | raised => simp [isEntered, isSuccess, hx]
    | entered c => cases c <;> simp [isEntered, isSuccess, hx]
  have hs : (establishAll bs).successful_servers
      = (bs.filter isSuccess).map Backend.name := by
    simpa [establishAll, initMain] using establishAllFrom_successful bs initMain
  have hf : (establishAll bs).failed_servers
      = (bs.filter (fun b => !isSuccess b)).map Backend.name := by
    simpa [establishAll, initMain] using establishAllFrom_failed bs initMain
  refine ⟨?_, ?_, ?_⟩
  · rw [hs, List.filter_congr hpt]
  · rw [hf, List.filter_congr ?_]
    intro x hx
    rw [hpt x hx]
  · intro b hb henter
    rw [hf]
    exact List.mem_map.mpr ⟨b, List.mem_filter.mpr ⟨hb, by simp [isSuccess, henter]⟩, rfl⟩

theorem succeeded_requires_connected_flag_witness :
    "x" ∈ (establishAll [⟨"x", EnterResult.entered false⟩]).failed_servers :=
  (succeeded_requires_connected_flag [⟨"x", EnterResult.entered false⟩]).2.2
    ⟨"x", EnterResult.entered false⟩ (by simp) rfl

end Mcpo
